import Mathlib

/-!
Verification of the SQLite-on-SPIFFS example (src/main/spiffs.c).

The program is sequential glue code around two external collaborators
(the SPIFFS filesystem driver and the SQLite engine).  We embed it as a
trace semantics: every observable effect of a run (log lines, printf
output, engine calls with their result codes, unlink, close, unmount)
becomes one `Action` in a list, and the outcomes of the external calls
are supplied by an oracle environment.  Each C function becomes a Lean
function from the oracle (and the running call counters) to the trace it
emits, mirroring the C control flow statement by statement.
-/

namespace Spiffs

/-- One observable event of a run: a log line, a printf line, or a call
into one of the external collaborators together with the result code the
oracle assigned to it.  `db` identifies a handle: 1 for `db1`, 2 for
`db2`. -/
inductive Action where
  | logI (msg : String)
  | logE (msg : String)
  | print (s : String)
  | mountCall (ret : Int)
  | infoCall (ret : Int)
  | unlinkCall (path : String)
  | sqlInit
  | openCall (path : String) (db : Nat) (rc : Int)
  | execCall (db : Nat) (sql : String) (rc : Int)
  | freeMsg
  | closeCall (db : Nat)
  | unmountCall
  deriving DecidableEq

/-- Oracle for the SQLite collaborator: the result code and error
message of the n-th `sqlite3_open` call, the result code and error
message of the n-th `sqlite3_exec` call, and the value returned by the
n-th `esp_timer_get_time` call. -/
structure DbEnv where
  openRc : Nat → Int
  openErr : Nat → String
  execRc : Nat → Int
  execErr : Nat → String
  timer : Nat → Int

/-- Oracle for a whole run: the database oracle plus the results of the
SPIFFS mount (`esp_vfs_spiffs_register`) and usage query
(`esp_spiffs_info`), the reported partition sizes, and the name table
used by `esp_err_to_name`. -/
structure Env where
  db : DbEnv
  mountRet : Int
  infoRet : Int
  total : Nat
  used : Nat
  errName : Int → String

/-- Call counters threaded through a run: `tk` counts timer reads and
`ek` counts `sqlite3_exec` calls made so far. -/
structure St where
  tk : Nat
  ek : Nat
  deriving DecidableEq

/-- `SQLITE_OK` (sqlite3.h). -/
def SQLITE_OK : Int := 0

/-- `ESP_OK` (esp_err.h). -/
def ESP_OK : Int := 0

/-- `ESP_FAIL` (esp_err.h). -/
def ESP_FAIL : Int := -1

/-- `ESP_ERR_NOT_FOUND` (esp_err.h, value 0x105). -/
def ESP_ERR_NOT_FOUND : Int := 261

/-- Embeds `callback` (src/main/spiffs.c:47-61).  Returns the printed
lines: the custom message with the `: ` suffix of its format string,
then one `name = value` line per column with a NULL value rendered as
the literal string "NULL", then the empty separator line.  `argv` holds
the column values (`none` for SQL NULL) and `azColName` the column
names; the C loop bound `argc` indexes both arrays, which `zip`
reflects. -/
def callback (data : String) (argv : List (Option String))
    (azColName : List String) : List String :=
  (data ++ ": ") ::
    ((azColName.zip argv).map fun p => p.1 ++ " = " ++ p.2.getD "NULL") ++ [""]

/-- Embeds `db_open` (src/main/spiffs.c:83-92) for the k-th open call of
the run: the open call event, the branch on its result code, and the
returned code. -/
def db_open (e : DbEnv) (k : Nat) (path : String) (db : Nat) :
    List Action × Int :=
  let rc := e.openRc k
  (Action.openCall path db rc ::
     (if rc ≠ 0 then [Action.print ("Can\x27t open database: " ++ e.openErr k)]
      else [Action.print "Opened database successfully"]),
   rc)

/-- Embeds `db_exec` (src/main/spiffs.c:114-131): print the statement,
read the start time, run the statement, print and free the error message
on failure or print the success line, print the elapsed time, and return
the engine result code.  The counters account for the two timer reads
and the one exec call. -/
def db_exec (e : DbEnv) (s : St) (db : Nat) (sql : String) :
    List Action × Int × St :=
  let start := e.timer s.tk
  let rc := e.execRc s.ek
  let stop := e.timer (s.tk + 1)
  (Action.print sql :: Action.execCall db sql rc ::
     (if rc ≠ SQLITE_OK then
        [Action.print ("SQL error: " ++ e.execErr s.ek), Action.freeMsg]
      else
        [Action.print "Operation done successfully"]) ++
     [Action.print ("Time taken: " ++ toString (stop - start))],
   rc, ⟨s.tk + 2, s.ek + 1⟩)

/-- SQL text of src/main/spiffs.c:147. -/
def createSql1 : String := "CREATE TABLE test1 (id INTEGER, content);"

/-- SQL text of src/main/spiffs.c:154. -/
def createSql2 : String := "CREATE TABLE test2 (id INTEGER, content);"

/-- SQL text of src/main/spiffs.c:177. -/
def insertSql1 : String :=
  "INSERT INTO test1 VALUES (1, \x27Hello, World from test1, ESP-IDF 5.1.1\x27);"

/-- SQL text of src/main/spiffs.c:184. -/
def insertSql2 : String :=
  "INSERT INTO test2 VALUES (1, \x27Hello, World from test2, ESP-IDF 5.1.1\x27);"

/-- SQL text of src/main/spiffs.c:206. -/
def selectSql1 : String := "SELECT * FROM test1"

/-- SQL text of src/main/spiffs.c:213. -/
def selectSql2 : String := "SELECT * FROM test2"

/-- Embeds `create_db` (src/main/spiffs.c:145-161): create table test1
on db1; on failure close both handles and return; otherwise create
table test2 on db2 with the same error handling, then log success. -/
def create_db (e : DbEnv) (s : St) : List Action × St :=
  let r1 := db_exec e s 1 createSql1
  let t1 := Action.logI "Creating table test1" :: r1.1
  if r1.2.1 ≠ SQLITE_OK then
    (t1 ++ [Action.closeCall 1, Action.closeCall 2], r1.2.2)
  else
    let r2 := db_exec e r1.2.2 2 createSql2
    let t2 := t1 ++ Action.logI "Creating table test2" :: r2.1
    if r2.2.1 ≠ SQLITE_OK then
      (t2 ++ [Action.closeCall 1, Action.closeCall 2], r2.2.2)
    else
      (t2 ++ [Action.logI "Tables created succesfully"], r2.2.2)

/-- Embeds `insert_data` (src/main/spiffs.c:175-190): insert into test1
on db1; on failure close both handles and return; otherwise insert into
test2 on db2 with the same error handling. -/
def insert_data (e : DbEnv) (s : St) : List Action × St :=
  let r1 := db_exec e s 1 insertSql1
  let t1 := Action.logI "Inserting data in table test1" :: r1.1
  if r1.2.1 ≠ SQLITE_OK then
    (t1 ++ [Action.closeCall 1, Action.closeCall 2], r1.2.2)
  else
    let r2 := db_exec e r1.2.2 2 insertSql2
    let t2 := t1 ++ Action.logI "Inserting data in table test2" :: r2.1
    if r2.2.1 ≠ SQLITE_OK then
      (t2 ++ [Action.closeCall 1, Action.closeCall 2], r2.2.2)
    else
      (t2, r2.2.2)

/-- Embeds `select_data` (src/main/spiffs.c:204-219): select from test1
on db1; on failure close both handles and return; otherwise select from
test2 on db2 with the same error handling. -/
def select_data (e : DbEnv) (s : St) : List Action × St :=
  let r1 := db_exec e s 1 selectSql1
  let t1 := Action.logI "Selecting data from test1" :: r1.1
  if r1.2.1 ≠ SQLITE_OK then
    (t1 ++ [Action.closeCall 1, Action.closeCall 2], r1.2.2)
  else
    let r2 := db_exec e r1.2.2 2 selectSql2
    let t2 := t1 ++ Action.logI "Selecting data from test2" :: r2.1
    if r2.2.1 ≠ SQLITE_OK then
      (t2 ++ [Action.closeCall 1, Action.closeCall 2], r2.2.2)
    else
      (t2, r2.2.2)

/-- Path of src/main/spiffs.c:259. -/
def path1 : String := "/spiffs/test1.db"

/-- Path of src/main/spiffs.c:260. -/
def path2 : String := "/spiffs/test2.db"

/-- Embeds src/main/spiffs.c:258-293, the part of `app_main` after the
SPIFFS usage query: unconditionally unlink both database files, start
the SQLite library, open both databases (returning on the first open
failure), run the three step groups, close both handles, and unmount.
Note the results of `create_db`, `insert_data` and `select_data` are not
consulted: the three calls and the final closes are unconditional. -/
def dbPhase (e : DbEnv) : List Action :=
  let o1 := db_open e 0 path1 1
  let pre1 := Action.unlinkCall path1 :: Action.unlinkCall path2 ::
    Action.sqlInit :: Action.logI "Opening table test1" :: o1.1
  if o1.2 ≠ 0 then pre1
  else
    let o2 := db_open e 1 path2 2
    let pre2 := pre1 ++ Action.logI "Opening table test2" :: o2.1
    if o2.2 ≠ 0 then pre2
    else
      let c := create_db e ⟨0, 0⟩
      let i := insert_data e c.2
      let sl := select_data e i.2
      pre2 ++ c.1 ++ i.1 ++ sl.1 ++
        [Action.closeCall 1, Action.closeCall 2, Action.unmountCall,
         Action.logI "SPIFFS unmounted"]

/-- The single log line emitted for the SPIFFS usage query result
(src/main/spiffs.c:252-256): an error log if `esp_spiffs_info` failed,
the partition-size info log otherwise. -/
def infoLog (e : Env) : Action :=
  if e.infoRet ≠ ESP_OK then
    Action.logE ("Failed to get SPIFFS partition information (" ++
      e.errName e.infoRet ++ ")")
  else
    Action.logI ("Partition size: total: " ++ toString e.total ++ ", used: " ++
      toString e.used)

/-- The error message logged when the mount fails
(src/main/spiffs.c:238-245), selected by the mount result code. -/
def mountFailMsg (e : Env) : String :=
  if e.mountRet = ESP_FAIL then "Failed to mount or format filesystem"
  else if e.mountRet = ESP_ERR_NOT_FOUND then "Failed to find SPIFFS partition"
  else "Failed to initialize SPIFFS (" ++ e.errName e.mountRet ++ ")"

/-- Embeds `app_main` (src/main/spiffs.c:221-293): log, mount, and on
mount failure log the failure kind and return; otherwise query usage,
log its outcome, and run the database phase. -/
def app_main (e : Env) : List Action :=
  if e.mountRet ≠ ESP_OK then
    [Action.logI "Initializing SPIFFS", Action.mountCall e.mountRet,
     Action.logE (mountFailMsg e)]
  else
    Action.logI "Initializing SPIFFS" :: Action.mountCall e.mountRet ::
      Action.infoCall e.infoRet :: infoLog e :: dbPhase e.db

/-- True of a `sqlite3_exec` call event. -/
def isExecA : Action → Bool
  | .execCall _ _ _ => true
  | _ => false

/-- True of a `sqlite3_exec` call event whose result code is a
failure. -/
def isFailExecA : Action → Bool
  | .execCall _ _ rc => rc != 0
  | _ => false

/-- True of a `sqlite3_open` call event. -/
def isOpenA : Action → Bool
  | .openCall _ _ _ => true
  | _ => false

/-- True of a successful `sqlite3_open` call event. -/
def isOpenOkA : Action → Bool
  | .openCall _ _ rc => rc == 0
  | _ => false

/-- True of a `sqlite3_close` call event. -/
def isCloseA : Action → Bool
  | .closeCall _ => true
  | _ => false

/-- True of a `sqlite3_close` call event on handle `d`. -/
def isCloseD (d : Nat) : Action → Bool
  | .closeCall j => j == d
  | _ => false

/-- True of a mount call event. -/
def isMountA : Action → Bool
  | .mountCall _ => true
  | _ => false

/-- The trace satisfies: after the first failing statement execution, no
further statement execution of any kind occurs. -/
def noExecAfterFail : List Action → Bool
  | [] => true
  | a :: t => if isFailExecA a then t.all (fun b => !isExecA b)
              else noExecAfterFail t

/-- The SQL text of a statement-execution event, if the event is one. -/
def execSqlOf : Action → Option String
  | .execCall _ q _ => some q
  | _ => none

/-- The SQL texts of the statements a trace executes, in order. -/
def execSqls (t : List Action) : List String := t.filterMap execSqlOf

/-- Number of close calls on handle `d` in a trace. -/
def countClose (d : Nat) (t : List Action) : Nat := t.countP (isCloseD d)

/-- Number of close calls (on any handle) in a trace. -/
def countCloseAll (t : List Action) : Nat := t.countP isCloseA

/-- Number of successful open calls in a trace. -/
def countOpenOk (t : List Action) : Nat := t.countP isOpenOkA

/-- Number of mount calls in a trace. -/
def countMount (t : List Action) : Nat := t.countP isMountA

/-- Database oracle where both opens succeed and every statement
execution fails. -/
def dbAllFail : DbEnv :=
  { openRc := fun _ => 0
    openErr := fun _ => ""
    execRc := fun _ => 1
    execErr := fun _ => "disk I/O error"
    timer := fun _ => 0 }

/-- Database oracle where every call succeeds. -/
def dbAllOk : DbEnv :=
  { openRc := fun _ => 0
    openErr := fun _ => ""
    execRc := fun _ => 0
    execErr := fun _ => ""
    timer := fun _ => 0 }

/-- Run oracle: everything succeeds. -/
def envAllOk : Env :=
  { db := dbAllOk, mountRet := 0, infoRet := 0, total := 512, used := 12,
    errName := fun _ => "" }

/-- Run oracle: mount and opens succeed, every statement execution
fails (so in particular the first CREATE TABLE fails). -/
def envCreateFail : Env := { envAllOk with db := dbAllFail }

/-- Run oracle: mount fails with `ESP_FAIL`. -/
def envMountFail : Env := { envAllOk with mountRet := ESP_FAIL }

/-- Database oracle where the first open succeeds and the second open
fails. -/
def dbOpen2Fail : DbEnv :=
  { dbAllOk with
    openRc := fun k => if k = 0 then 0 else 1
    openErr := fun _ => "unable to open database file" }

/-- Run oracle: mount succeeds, first open succeeds, second open
fails. -/
def envOpen2Fail : Env := { envAllOk with db := dbOpen2Fail }

/-- Run oracle: mount succeeds but the usage query fails. -/
def envInfoFail : Env := { envAllOk with infoRet := ESP_FAIL }

/-- The usage-query log line is a log action, whatever the outcome. -/
theorem infoLog_cases (e : Env) :
    (∃ m, infoLog e = Action.logE m) ∨ ∃ m, infoLog e = Action.logI m := by
  unfold infoLog
  split
  · exact Or.inl ⟨_, rfl⟩
  · exact Or.inr ⟨_, rfl⟩

/-- The usage-query log line is not a close call. -/
theorem isCloseD_infoLog (d : Nat) (e : Env) : isCloseD d (infoLog e) = false := by
  rcases infoLog_cases e with ⟨m, h⟩ | ⟨m, h⟩ <;> rw [h] <;> rfl

/-- The usage-query log line is not a close call. -/
theorem isCloseA_infoLog (e : Env) : isCloseA (infoLog e) = false := by
  rcases infoLog_cases e with ⟨m, h⟩ | ⟨m, h⟩ <;> rw [h] <;> rfl

/-- The usage-query log line is not an open call. -/
theorem isOpenA_infoLog (e : Env) : isOpenA (infoLog e) = false := by
  rcases infoLog_cases e with ⟨m, h⟩ | ⟨m, h⟩ <;> rw [h] <;> rfl

/-- The usage-query log line is not a successful open call. -/
theorem isOpenOkA_infoLog (e : Env) : isOpenOkA (infoLog e) = false := by
  rcases infoLog_cases e with ⟨m, h⟩ | ⟨m, h⟩ <;> rw [h] <;> rfl

/-- The usage-query log line is not a statement execution. -/
theorem execSqlOf_infoLog (e : Env) : execSqlOf (infoLog e) = none := by
  rcases infoLog_cases e with ⟨m, h⟩ | ⟨m, h⟩ <;> rw [h] <;> rfl

/-- When the mount succeeds, the run is the fixed four-action prelude
followed by the database phase. -/
theorem app_main_mountOk (e : Env) (hm : e.mountRet = 0) :
    app_main e = Action.logI "Initializing SPIFFS" :: Action.mountCall 0 ::
      Action.infoCall e.infoRet :: infoLog e :: dbPhase e.db := by
  simp [app_main, ESP_OK, hm]

/-- When both opens succeed, the database phase is the unlink/open
prelude, the three step groups, and the final closes and unmount. -/
theorem dbPhase_opensOk (e : DbEnv) (h0 : e.openRc 0 = 0) (h1 : e.openRc 1 = 0) :
    dbPhase e = Action.unlinkCall path1 :: Action.unlinkCall path2 ::
      Action.sqlInit :: Action.logI "Opening table test1" ::
      Action.openCall path1 1 0 :: Action.print "Opened database successfully" ::
      Action.logI "Opening table test2" ::
      Action.openCall path2 2 0 :: Action.print "Opened database successfully" ::
      ((create_db e ⟨0, 0⟩).1 ++ (insert_data e (create_db e ⟨0, 0⟩).2).1 ++
       (select_data e (insert_data e (create_db e ⟨0, 0⟩).2).2).1 ++
       [Action.closeCall 1, Action.closeCall 2, Action.unmountCall,
        Action.logI "SPIFFS unmounted"]) := by
  simp [dbPhase, db_open, h0, h1]

/-- When the first CREATE TABLE fails, `create_db` runs only that
statement, closes both handles, and leaves the counters at one exec and
two timer reads. -/
theorem create_db_fail1 (e : DbEnv) (hf : e.execRc 0 ≠ 0) :
    create_db e ⟨0, 0⟩ =
      ([Action.logI "Creating table test1", Action.print createSql1,
        Action.execCall 1 createSql1 (e.execRc 0),
        Action.print ("SQL error: " ++ e.execErr 0), Action.freeMsg,
        Action.print ("Time taken: " ++ toString (e.timer 1 - e.timer 0)),
        Action.closeCall 1, Action.closeCall 2], ⟨2, 1⟩) := by
  simp [create_db, db_exec, SQLITE_OK, hf]

/-- `execSqls` distributes over append. -/
theorem execSqls_append (l₁ l₂ : List Action) :
    execSqls (l₁ ++ l₂) = execSqls l₁ ++ execSqls l₂ := by
  simp [execSqls]

/-- A single `db_exec` executes exactly its statement. -/
theorem execSqls_db_exec (e : DbEnv) (s : St) (d : Nat) (q : String) :
    execSqls (db_exec e s d q).1 = [q] := by
  by_cases h : e.execRc s.ek = 0 <;>
    simp [db_exec, execSqls, execSqlOf, SQLITE_OK, h]

/-- `insert_data` executes the first INSERT and, only if it succeeded,
the second. -/
theorem execSqls_insert_data (e : DbEnv) (s : St) :
    execSqls (insert_data e s).1 = [insertSql1] ∨
      execSqls (insert_data e s).1 = [insertSql1, insertSql2] := by
  by_cases h : e.execRc s.ek = 0 <;> by_cases h2 : e.execRc (s.ek + 1) = 0 <;>
    simp [insert_data, db_exec, execSqls, execSqlOf, SQLITE_OK, h, h2]

/-- `select_data` executes the first SELECT and, only if it succeeded,
the second. -/
theorem execSqls_select_data (e : DbEnv) (s : St) :
    execSqls (select_data e s).1 = [selectSql1] ∨
      execSqls (select_data e s).1 = [selectSql1, selectSql2] := by
  by_cases h : e.execRc s.ek = 0 <;> by_cases h2 : e.execRc (s.ek + 1) = 0 <;>
    simp [select_data, db_exec, execSqls, execSqlOf, SQLITE_OK, h, h2]

/-- `countClose` distributes over append. -/
theorem countClose_append (d : Nat) (l₁ l₂ : List Action) :
    countClose d (l₁ ++ l₂) = countClose d l₁ + countClose d l₂ := by
  simp [countClose]

/-- C5: every statement execution returns the engine result code
unchanged to its caller; when that code is a failure the executor prints
the engine-provided error message and releases it (the `freeMsg` event),
and when it is success it returns the success code and never frees a
message. -/
theorem C5_exec_error_handling (e : DbEnv) (s : St) (d : Nat) (q : String) :
    (db_exec e s d q).2.1 = e.execRc s.ek ∧
    (e.execRc s.ek ≠ 0 →
      Action.print ("SQL error: " ++ e.execErr s.ek) ∈ (db_exec e s d q).1 ∧
      Action.freeMsg ∈ (db_exec e s d q).1) ∧
    (e.execRc s.ek = 0 →
      (db_exec e s d q).2.1 = 0 ∧ Action.freeMsg ∉ (db_exec e s d q).1) := by
  by_cases h : e.execRc s.ek = 0 <;> simp [db_exec, SQLITE_OK, h]

/-- C5 witness: on the all-failing oracle the first CREATE returns the
failure code 1 and the error message is printed and freed. -/
theorem C5_exec_error_handling_witness :
    (db_exec dbAllFail ⟨0, 0⟩ 1 createSql1).2.1 = 1 ∧
    Action.print ("SQL error: " ++ "disk I/O error") ∈
      (db_exec dbAllFail ⟨0, 0⟩ 1 createSql1).1 ∧
    Action.freeMsg ∈ (db_exec dbAllFail ⟨0, 0⟩ 1 createSql1).1 := by
  have h := C5_exec_error_handling dbAllFail ⟨0, 0⟩ 1 createSql1
  exact ⟨h.1, (h.2.1 (by decide)).1, (h.2.1 (by decide)).2⟩

/-- C6: every statement execution prints the statement text first,
before the engine call event, and its last output line reports the
elapsed time (end timestamp minus start timestamp); this holds whether
the engine call succeeds or fails. -/
theorem C6_exec_prints_and_times (e : DbEnv) (s : St) (d : Nat) (q : String) :
    (db_exec e s d q).1.head? = some (Action.print q) ∧
    (db_exec e s d q).1[1]? = some (Action.execCall d q (e.execRc s.ek)) ∧
    (db_exec e s d q).1.getLast? =
      some (Action.print ("Time taken: " ++
        toString (e.timer (s.tk + 1) - e.timer s.tk))) := by
  by_cases h : e.execRc s.ek = 0 <;> simp [db_exec, SQLITE_OK, h]

/-- C3: the Row Reporter output is the label line, then one line per
column pairing the i-th column name with the i-th column value in
order, with an absent (NULL) value rendered as the literal string
"NULL", then a blank separator line; as a Lean function of its three
arguments it retains no state between calls. -/
theorem C3_row_reporter (label : String) (vals : List (Option String))
    (names : List String) (h : vals.length = names.length) :
    (callback label vals names).length = names.length + 2 ∧
    (callback label vals names).head? = some (label ++ ": ") ∧
    (∀ i (hi : i < names.length),
      (callback label vals names)[i + 1]? =
        some (names.get ⟨i, hi⟩ ++ " = " ++
          ((vals.get ⟨i, by omega⟩).getD "NULL"))) ∧
    (callback label vals names).getLast? = some "" := by
  refine ⟨by simp [callback, h], rfl, ?_, ?_⟩
  · intro i hi
    have hv : i < vals.length := by omega
    have hz : i < (names.zip vals).length := by
      simp [List.length_zip]
      omega
    rw [show callback label vals names = (label ++ ": ") ::
      (((names.zip vals).map fun p => p.1 ++ " = " ++ p.2.getD "NULL") ++ [""])
      from rfl]
    rw [List.getElem?_cons_succ, List.getElem?_append_left (by simpa using hz),
      List.getElem?_map, List.getElem?_eq_getElem hz, List.getElem_zip]
    simp [List.get_eq_getElem]
  · rw [show callback label vals names = ((label ++ ": ") ::
      ((names.zip vals).map fun p => p.1 ++ " = " ++ p.2.getD "NULL")) ++
      "" :: [] from by simp [callback]]
    rw [List.getLast?_append_cons]
    rfl

/-- C3 witness: one concrete row with a present and an absent value. -/
theorem C3_row_reporter_witness :
    (callback "Callback function called" [some "1", none] ["id", "content"]).length
      = 4 ∧
    (callback "Callback function called" [some "1", none] ["id", "content"])[2]? =
      some "content = NULL" := by
  have h := C3_row_reporter "Callback function called" [some "1", none]
    ["id", "content"] rfl
  refine ⟨h.1, ?_⟩
  have h2 := h.2.2.1 1 (by decide)
  simpa using h2

/-- Whatever the open outcomes, the database phase starts by unlinking
both database files. -/
theorem dbPhase_starts_with_unlinks (e : DbEnv) :
    ∃ t, dbPhase e = Action.unlinkCall path1 :: Action.unlinkCall path2 :: t := by
  unfold dbPhase
  by_cases h0 : e.openRc 0 = 0 <;> by_cases h1 : e.openRc 1 = 0 <;>
    simp [db_open, h0, h1]

/-- C7: in every run that reaches the database phase (the mount
succeeded), both database files are unlinked, and no open call occurs
before the two unlinks.  The unlink events are emitted unconditionally
by the model, as by the code, with no check that the files exist. -/
theorem C7_unconditional_removal (e : Env) (hm : e.mountRet = 0) :
    ∃ l₁ l₂, app_main e = l₁ ++ Action.unlinkCall path1 ::
      Action.unlinkCall path2 :: l₂ ∧ ∀ a ∈ l₁, isOpenA a = false := by
  obtain ⟨t, ht⟩ := dbPhase_starts_with_unlinks e.db
  refine ⟨[Action.logI "Initializing SPIFFS", Action.mountCall 0,
    Action.infoCall e.infoRet, infoLog e], t, ?_, ?_⟩
  · rw [app_main_mountOk e hm, ht]
    rfl
  · intro a ha
    simp only [List.mem_cons, List.not_mem_nil, or_false] at ha
    rcases ha with rfl | rfl | rfl | rfl
    · rfl
    · rfl
    · rfl
    · exact isOpenA_infoLog e

/-- C7 witness: the all-success run unlinks both files before any
open. -/
theorem C7_unconditional_removal_witness :
    ∃ l₁ l₂, app_main envAllOk = l₁ ++ Action.unlinkCall path1 ::
      Action.unlinkCall path2 :: l₂ ∧ ∀ a ∈ l₁, isOpenA a = false :=
  C7_unconditional_removal envAllOk rfl

/-- C8: when the mount fails, the trace is exactly the prelude and the
one failure log: there is no open, statement execution, or close call
anywhere in the run, and the mount is called exactly once (no
retry). -/
theorem C8_mount_failure_fatal (e : Env) (hm : e.mountRet ≠ 0) :
    app_main e = [Action.logI "Initializing SPIFFS",
      Action.mountCall e.mountRet, Action.logE (mountFailMsg e)] ∧
    (∀ a ∈ app_main e, isOpenA a = false ∧ isExecA a = false ∧
      isCloseA a = false) ∧
    countMount (app_main e) = 1 := by
  have h : app_main e = [Action.logI "Initializing SPIFFS",
      Action.mountCall e.mountRet, Action.logE (mountFailMsg e)] := by
    simp [app_main, ESP_OK, hm]
  refine ⟨h, ?_, ?_⟩
  · rw [h]
    intro a ha
    simp only [List.mem_cons, List.not_mem_nil, or_false] at ha
    rcases ha with rfl | rfl | rfl <;> exact ⟨rfl, rfl, rfl⟩
  · rw [h]
    rfl

/-- C8 witness: the run whose mount returns `ESP_FAIL`. -/
theorem C8_mount_failure_fatal_witness :
    app_main envMountFail = [Action.logI "Initializing SPIFFS",
      Action.mountCall envMountFail.mountRet,
      Action.logE (mountFailMsg envMountFail)] ∧
    (∀ a ∈ app_main envMountFail, isOpenA a = false ∧ isExecA a = false ∧
      isCloseA a = false) ∧
    countMount (app_main envMountFail) = 1 :=
  C8_mount_failure_fatal envMountFail (by decide)

/-- C9: when the first open succeeds and the second open fails, the run
ends with no close call on any handle (in particular the first,
successfully opened, handle is never closed), no unmount, and no
statement execution. -/
theorem C9_open2_failure (e : Env) (hm : e.mountRet = 0)
    (h0 : e.db.openRc 0 = 0) (h1 : e.db.openRc 1 ≠ 0) :
    (∀ d, Action.closeCall d ∉ app_main e) ∧
    Action.unmountCall ∉ app_main e ∧
    (∀ d q r, Action.execCall d q r ∉ app_main e) := by
  have h : app_main e = Action.logI "Initializing SPIFFS" ::
      Action.mountCall 0 :: Action.infoCall e.infoRet :: infoLog e ::
      Action.unlinkCall path1 :: Action.unlinkCall path2 :: Action.sqlInit ::
      Action.logI "Opening table test1" :: Action.openCall path1 1 0 ::
      Action.print "Opened database successfully" ::
      Action.logI "Opening table test2" ::
      Action.openCall path2 2 (e.db.openRc 1) ::
      [Action.print ("Can\x27t open database: " ++ e.db.openErr 1)] := by
    rw [app_main_mountOk e hm]
    simp [dbPhase, db_open, h0, h1]
  rcases infoLog_cases e with ⟨m, hL⟩ | ⟨m, hL⟩ <;> rw [hL] at h <;>
    exact ⟨fun d => by simp [h], by simp [h], fun d q r => by simp [h]⟩

/-- C9 witness: the run whose second open fails. -/
theorem C9_open2_failure_witness :
    (∀ d, Action.closeCall d ∉ app_main envOpen2Fail) ∧
    Action.unmountCall ∉ app_main envOpen2Fail ∧
    (∀ d q r, Action.execCall d q r ∉ app_main envOpen2Fail) :=
  C9_open2_failure envOpen2Fail rfl rfl (by decide)

/-- C10: a failing usage query is only logged and is not fatal.  Two
runs that differ only in the usage-query outcome (one failing, one
succeeding) produce the same trace after the usage log line: the same
unlinks, opens, statements, closes, and unmount. -/
theorem C10_info_failure_nonfatal (e₁ e₂ : Env) (hm₁ : e₁.mountRet = 0)
    (hm₂ : e₂.mountRet = 0) (hi₁ : e₁.infoRet ≠ 0) (hi₂ : e₂.infoRet = 0)
    (hdb : e₁.db = e₂.db) :
    app_main e₁ = [Action.logI "Initializing SPIFFS", Action.mountCall 0,
      Action.infoCall e₁.infoRet,
      Action.logE ("Failed to get SPIFFS partition information (" ++
        e₁.errName e₁.infoRet ++ ")")] ++ dbPhase e₁.db ∧
    app_main e₂ = [Action.logI "Initializing SPIFFS", Action.mountCall 0,
      Action.infoCall 0,
      Action.logI ("Partition size: total: " ++ toString e₂.total ++
        ", used: " ++ toString e₂.used)] ++ dbPhase e₁.db := by
  constructor
  · rw [app_main_mountOk e₁ hm₁]
    simp [infoLog, ESP_OK, hi₁]
  · rw [app_main_mountOk e₂ hm₂]
    simp [infoLog, ESP_OK, hi₂, hdb]

/-- C10 witness: the info-failing run and the all-success run share the
whole database phase. -/
theorem C10_info_failure_nonfatal_witness :
    app_main envInfoFail = [Action.logI "Initializing SPIFFS",
      Action.mountCall 0, Action.infoCall envInfoFail.infoRet,
      Action.logE ("Failed to get SPIFFS partition information (" ++
        envInfoFail.errName envInfoFail.infoRet ++ ")")] ++
      dbPhase envInfoFail.db ∧
    app_main envAllOk = [Action.logI "Initializing SPIFFS",
      Action.mountCall 0, Action.infoCall 0,
      Action.logI ("Partition size: total: " ++ toString envAllOk.total ++
        ", used: " ++ toString envAllOk.used)] ++ dbPhase envInfoFail.db :=
  C10_info_failure_nonfatal envInfoFail envAllOk rfl rfl (by decide) rfl rfl

/-- When the mount and both opens succeed but the first CREATE TABLE
fails, the run is: prelude, unlink/open prelude, the failing CREATE with
its cleanup closes, and then — because `app_main` never consults the
step results — the insert step, the select step, and the unconditional
final closes and unmount. -/
theorem trace_createFail (e : Env) (hm : e.mountRet = 0)
    (h0 : e.db.openRc 0 = 0) (h1 : e.db.openRc 1 = 0)
    (hf : e.db.execRc 0 ≠ 0) :
    app_main e = [Action.logI "Initializing SPIFFS", Action.mountCall 0,
      Action.infoCall e.infoRet, infoLog e, Action.unlinkCall path1,
      Action.unlinkCall path2, Action.sqlInit,
      Action.logI "Opening table test1", Action.openCall path1 1 0,
      Action.print "Opened database successfully",
      Action.logI "Opening table test2", Action.openCall path2 2 0,
      Action.print "Opened database successfully",
      Action.logI "Creating table test1", Action.print createSql1,
      Action.execCall 1 createSql1 (e.db.execRc 0),
      Action.print ("SQL error: " ++ e.db.execErr 0), Action.freeMsg,
      Action.print ("Time taken: " ++ toString (e.db.timer 1 - e.db.timer 0))] ++
      Action.closeCall 1 :: Action.closeCall 2 ::
      ((insert_data e.db ⟨2, 1⟩).1 ++
       ((select_data e.db (insert_data e.db ⟨2, 1⟩).2).1 ++
        [Action.closeCall 1, Action.closeCall 2, Action.unmountCall,
         Action.logI "SPIFFS unmounted"])) := by
  have hcf := create_db_fail1 e.db hf
  have hc1 := congrArg Prod.fst hcf
  have hc2 := congrArg Prod.snd hcf
  simp only [] at hc1 hc2
  rw [app_main_mountOk e hm, dbPhase_opensOk e.db h0 h1, hc2, hc1]
  simp

/-- In the create-failure run, the executed statements are the failing
CREATE followed by whatever the insert and select steps execute. -/
theorem execSqls_trace_createFail (e : Env) (hm : e.mountRet = 0)
    (h0 : e.db.openRc 0 = 0) (h1 : e.db.openRc 1 = 0)
    (hf : e.db.execRc 0 ≠ 0) :
    execSqls (app_main e) = createSql1 ::
      (execSqls (insert_data e.db ⟨2, 1⟩).1 ++
       execSqls (select_data e.db (insert_data e.db ⟨2, 1⟩).2).1) := by
  rw [trace_createFail e hm h0 h1 hf]
  rcases infoLog_cases e with ⟨m, hL⟩ | ⟨m, hL⟩ <;> rw [hL] <;>
    simp [execSqls, execSqlOf]

/-- C1 counterexample: the claim that no statement of any later step
runs after the first statement failure is false.  In the run where every
statement fails, the failing first CREATE TABLE is followed by further
statement executions (the insert and select steps still run). -/
theorem C1_counterexample :
    ¬ (∀ e : Env, noExecAfterFail (app_main e) = true) := by
  intro hcl
  have h1 := hcl envCreateFail
  have h2 : noExecAfterFail (app_main envCreateFail) = false := by rfl
  rw [h1] at h2
  exact Bool.noConfusion h2

/-- C1 (amended): once a statement execution fails, the failing step
closes both handles and skips its own remaining statement, but the run
does not end: statements of later steps are still executed after that
cleanup, and both handles are closed again, for at least two close calls
on each handle in total. -/
theorem C1_amended (e : Env) (hm : e.mountRet = 0) (h0 : e.db.openRc 0 = 0)
    (h1 : e.db.openRc 1 = 0) (hf : e.db.execRc 0 ≠ 0) :
    createSql2 ∉ execSqls (app_main e) ∧
    (∃ l₁ l₂, app_main e = l₁ ++ Action.closeCall 1 :: Action.closeCall 2 :: l₂ ∧
      insertSql1 ∈ execSqls l₂) ∧
    2 ≤ countClose 1 (app_main e) ∧ 2 ≤ countClose 2 (app_main e) := by
  have ht := trace_createFail e hm h0 h1 hf
  refine ⟨?_, ⟨_, _, ht, ?_⟩, ?_, ?_⟩
  · rw [execSqls_trace_createFail e hm h0 h1 hf]
    rcases execSqls_insert_data e.db ⟨2, 1⟩ with hi | hi <;>
      rcases execSqls_select_data e.db (insert_data e.db ⟨2, 1⟩).2 with hs | hs <;>
        rw [hi, hs] <;> decide
  · rcases execSqls_insert_data e.db ⟨2, 1⟩ with hi | hi <;>
      simp [execSqls_append, hi]
  · rw [ht]
    simp [countClose, List.countP_cons, List.countP_append, isCloseD,
      isCloseD_infoLog]
    omega
  · rw [ht]
    simp [countClose, List.countP_cons, List.countP_append, isCloseD,
      isCloseD_infoLog]
    omega

/-- C1 witness: the amended claim at the all-statements-failing
oracle. -/
theorem C1_amended_witness :
    createSql2 ∉ execSqls (app_main envCreateFail) ∧
    (∃ l₁ l₂, app_main envCreateFail = l₁ ++ Action.closeCall 1 ::
      Action.closeCall 2 :: l₂ ∧ insertSql1 ∈ execSqls l₂) ∧
    2 ≤ countClose 1 (app_main envCreateFail) ∧
    2 ≤ countClose 2 (app_main envCreateFail) :=
  C1_amended envCreateFail rfl rfl rfl (by decide)

/-- Every close site of `insert_data` closes handle 1 and handle 2
alike. -/
theorem countClose_pair_insert_data (e : DbEnv) (s : St) :
    countClose 1 (insert_data e s).1 = countClose 2 (insert_data e s).1 := by
  by_cases h : e.execRc s.ek = 0 <;> by_cases h2 : e.execRc (s.ek + 1) = 0 <;>
    simp [insert_data, db_exec, SQLITE_OK, countClose, isCloseD, h, h2]

/-- Every close site of `select_data` closes handle 1 and handle 2
alike. -/
theorem countClose_pair_select_data (e : DbEnv) (s : St) :
    countClose 1 (select_data e s).1 = countClose 2 (select_data e s).1 := by
  by_cases h : e.execRc s.ek = 0 <;> by_cases h2 : e.execRc (s.ek + 1) = 0 <;>
    simp [select_data, db_exec, SQLITE_OK, countClose, isCloseD, h, h2]

/-- C2 counterexample: the claim that after a failing first CREATE both
handles are closed exactly once over the remainder of the run is false.
In the run where every statement fails, handle 1 is closed four times
(by the create, insert, and select cleanups and by the final closes). -/
theorem C2_counterexample :
    ¬ (∀ e : Env, e.mountRet = 0 → e.db.openRc 0 = 0 → e.db.openRc 1 = 0 →
      e.db.execRc 0 ≠ 0 →
      createSql2 ∉ execSqls (app_main e) ∧
      countClose 1 (app_main e) = 1 ∧ countClose 2 (app_main e) = 1) := by
  intro hcl
  have h1 := (hcl envCreateFail rfl rfl rfl (by decide)).2.1
  have h4 : countClose 1 (app_main envCreateFail) = 4 := by rfl
  omega

/-- C2 (amended): if the CREATE TABLE statement on the first database
fails, the CREATE TABLE on the second database is never attempted;
close, however, is not called exactly once per handle: both handles
receive the same number of close calls, and that number is at least two
(the cleanup in the create step plus the unconditional closes at the
end of the run). -/
theorem C2_amended (e : Env) (hm : e.mountRet = 0) (h0 : e.db.openRc 0 = 0)
    (h1 : e.db.openRc 1 = 0) (hf : e.db.execRc 0 ≠ 0) :
    createSql2 ∉ execSqls (app_main e) ∧
    countClose 1 (app_main e) = countClose 2 (app_main e) ∧
    2 ≤ countClose 1 (app_main e) := by
  have ht := trace_createFail e hm h0 h1 hf
  refine ⟨?_, ?_, ?_⟩
  · rw [execSqls_trace_createFail e hm h0 h1 hf]
    rcases execSqls_insert_data e.db ⟨2, 1⟩ with hi | hi <;>
      rcases execSqls_select_data e.db (insert_data e.db ⟨2, 1⟩).2 with hs | hs <;>
        rw [hi, hs] <;> decide
  · have hp := countClose_pair_insert_data e.db ⟨2, 1⟩
    have hq := countClose_pair_select_data e.db (insert_data e.db ⟨2, 1⟩).2
    simp only [countClose] at hp hq
    rcases infoLog_cases e with ⟨m, hL⟩ | ⟨m, hL⟩ <;>
      rw [hL] at ht <;> rw [ht] <;>
      simp [countClose, List.countP_cons, List.countP_append, isCloseD] <;>
      omega
  · rw [ht]
    simp [countClose, List.countP_cons, List.countP_append, isCloseD,
      isCloseD_infoLog]
    omega

/-- C2 witness: the amended claim at the all-statements-failing
oracle. -/
theorem C2_amended_witness :
    createSql2 ∉ execSqls (app_main envCreateFail) ∧
    countClose 1 (app_main envCreateFail) = countClose 2 (app_main envCreateFail) ∧
    2 ≤ countClose 1 (app_main envCreateFail) :=
  C2_amended envCreateFail rfl rfl rfl (by decide)

/-- When both CREATE statements succeed, `create_db` runs both and
closes nothing. -/
theorem create_db_allOk (e : DbEnv) (x0 : e.execRc 0 = 0) (x1 : e.execRc 1 = 0) :
    create_db e ⟨0, 0⟩ =
      ([Action.logI "Creating table test1", Action.print createSql1,
        Action.execCall 1 createSql1 0, Action.print "Operation done successfully",
        Action.print ("Time taken: " ++ toString (e.timer 1 - e.timer 0)),
        Action.logI "Creating table test2", Action.print createSql2,
        Action.execCall 2 createSql2 0, Action.print "Operation done successfully",
        Action.print ("Time taken: " ++ toString (e.timer 3 - e.timer 2)),
        Action.logI "Tables created succesfully"], ⟨4, 2⟩) := by
  simp [create_db, db_exec, SQLITE_OK, x0, x1]

/-- When both INSERT statements succeed, `insert_data` runs both and
closes nothing. -/
theorem insert_data_allOk (e : DbEnv) (x2 : e.execRc 2 = 0) (x3 : e.execRc 3 = 0) :
    insert_data e ⟨4, 2⟩ =
      ([Action.logI "Inserting data in table test1", Action.print insertSql1,
        Action.execCall 1 insertSql1 0, Action.print "Operation done successfully",
        Action.print ("Time taken: " ++ toString (e.timer 5 - e.timer 4)),
        Action.logI "Inserting data in table test2", Action.print insertSql2,
        Action.execCall 2 insertSql2 0, Action.print "Operation done successfully",
        Action.print ("Time taken: " ++ toString (e.timer 7 - e.timer 6))],
       ⟨8, 4⟩) := by
  simp [insert_data, db_exec, SQLITE_OK, x2, x3]

/-- When both SELECT statements succeed, `select_data` runs both and
closes nothing. -/
theorem select_data_allOk (e : DbEnv) (x4 : e.execRc 4 = 0) (x5 : e.execRc 5 = 0) :
    select_data e ⟨8, 4⟩ =
      ([Action.logI "Selecting data from test1", Action.print selectSql1,
        Action.execCall 1 selectSql1 0, Action.print "Operation done successfully",
        Action.print ("Time taken: " ++ toString (e.timer 9 - e.timer 8)),
        Action.logI "Selecting data from test2", Action.print selectSql2,
        Action.execCall 2 selectSql2 0, Action.print "Operation done successfully",
        Action.print ("Time taken: " ++ toString (e.timer 11 - e.timer 10))],
       ⟨12, 6⟩) := by
  simp [select_data, db_exec, SQLITE_OK, x4, x5]

/-- C4: on the all-success path (mount succeeds, both opens succeed,
all six statements succeed) the number of close calls equals the number
of successful open calls: two of each, so no handle is leaked. -/
theorem C4_no_handle_leak (e : Env) (hm : e.mountRet = 0)
    (h0 : e.db.openRc 0 = 0) (h1 : e.db.openRc 1 = 0)
    (hx : ∀ k, k < 6 → e.db.execRc k = 0) :
    countOpenOk (app_main e) = 2 ∧ countCloseAll (app_main e) = 2 := by
  have x0 := hx 0 (by omega)
  have x1 := hx 1 (by omega)
  have x2 := hx 2 (by omega)
  have x3 := hx 3 (by omega)
  have x4 := hx 4 (by omega)
  have x5 := hx 5 (by omega)
  rw [app_main_mountOk e hm, dbPhase_opensOk e.db h0 h1,
    create_db_allOk e.db x0 x1]
  dsimp only
  rw [insert_data_allOk e.db x2 x3]
  dsimp only
  rw [select_data_allOk e.db x4 x5]
  dsimp only
  rcases infoLog_cases e with ⟨m, hL⟩ | ⟨m, hL⟩ <;> rw [hL] <;> constructor <;>
    simp [countOpenOk, countCloseAll, List.countP_cons, List.countP_append,
      isOpenOkA, isCloseA]

/-- C4 witness: the all-success oracle. -/
theorem C4_no_handle_leak_witness :
    countOpenOk (app_main envAllOk) = 2 ∧ countCloseAll (app_main envAllOk) = 2 :=
  C4_no_handle_leak envAllOk rfl rfl rfl (fun _ _ => rfl)

end Spiffs
